import Mathlib

/-!
Verification of `pkg/api/common/helper.go` (vendored aks-engine common
helpers): the validation-error translator `HandleValidationErrors` and the
config composers `GetDockerConfig` / `GetContainerdConfig` with their
override functions.

Embedding conventions:
* Go strings are ASCII field paths and messages, embedded as Lean `String`;
  the Go predicates `strings.HasPrefix` / `HasSuffix` / `Contains` are
  re-implemented over `List Char`.
* A Go panic (failed type assertion `err.Value().(int)`, index out of
  range on `e[0]`) is embedded as `Option.none`.
* A Go `error` value is embedded as a `String` (`GoErr`); `nil` error as
  `Option.none` / `Except.ok`.
* Go maps are association lists; a possibly-`nil` Go map is an
  `Option` of an association list (`none` = nil map).
-/

/-- Go `strings.HasPrefix ns p`. -/
def goStartsWith (s p : String) : Bool := p.data.isPrefixOf s.data

/-- Go `strings.HasSuffix ns suf`. -/
def goEndsWith (s suf : String) : Bool := suf.data.isSuffixOf s.data

/-- Substring search on character lists; `containsSub needle hay` is true
iff `needle` occurs contiguously in `hay` (Go `strings.Contains hay needle`). -/
def containsSub (needle : List Char) : List Char → Bool
  | [] => needle.isPrefixOf ([] : List Char)
  | c :: t => needle.isPrefixOf (c :: t) || containsSub needle t

/-- Go `strings.Contains s sub`. -/
def goContainsStr (s sub : String) : Bool := containsSub sub.data s.data

/-- The dynamic type of the offending value carried by a validator
field error (`err.Value()` has interface type in Go). -/
inductive GoValue : Type
  | int (n : Int)
  | str (s : String)
  | other
deriving DecidableEq

/-- One `validator.FieldError` of a `validator.ValidationErrors` batch,
restricted to the two accessors the code uses: `Namespace()` and `Value()`. -/
structure VFailure : Type where
  Namespace : String
  Value : GoValue
deriving DecidableEq

/-- The numeric bounds constants interpolated into the messages.  They are
declared elsewhere in the package (not in the file under verification), so
the translator is parameterized over them. -/
structure VConsts : Type where
  MinDiskSizeGB : Int
  MaxDiskSizeGB : Int
  MinIPAddressCount : Int
  MaxIPAddressCount : Int
  MinAgentCount : Int
  MaxAgentCount : Int
  MinPort : Int
  MaxPort : Int
  MaxDisks : Int
deriving DecidableEq

/-- Modelled from the spec: the storage-profile constant `StorageAccount`
(a package constant declared outside the file under verification), one of
the valid storage-profile values listed in the messages. -/
def StorageAccount : String := "StorageAccount"

/-- Modelled from the spec: the storage-profile constant `ManagedDisks`
(a package constant declared outside the file under verification). -/
def ManagedDisks : String := "ManagedDisks"

/-- Modelled from the spec: the storage-profile constant `Ephemeral`
(a package constant declared outside the file under verification), listed
only in the agent-pool storage-profile message. -/
def Ephemeral : String := "Ephemeral"

/-- Concatenate strings with a separator. -/
def joinWith (sep : String) : List String → String
  | [] => ""
  | [x] => x
  | x :: xs => x ++ sep ++ joinWith sep xs

/-- Modelled from the spec: the `%+v` rendering of one field error inside
the raw failure batch that the fallback message embeds (`fmt` formatting is
external); it shows the namespace and the offending value. -/
def formatValue : GoValue → String
  | GoValue.int n => toString n
  | GoValue.str s => s
  | GoValue.other => "<nil>"

/-- Modelled from the spec: the `%+v` rendering of one failure. -/
def formatFailure (f : VFailure) : String :=
  "\x7bNamespace: " ++ f.Namespace ++ " Value: " ++ formatValue f.Value ++ "\x7d"

/-- Modelled from the spec: the `%+v` rendering of the raw failure batch. -/
def formatBatch (e : List VFailure) : String :=
  "[" ++ joinWith " " (e.map formatFailure) ++ "]"

/-- The generic fallback message of `HandleValidationErrors`
(`"Namespace %s is not caught, %+v"`). -/
def fallbackMessage (ns : String) (e : List VFailure) : String :=
  "Namespace " ++ ns ++ " is not caught, " ++ formatBatch e

/-- The nine exact paths that share the `"missing %s"` template
(the first `case` of the `switch` in `HandleValidationErrors`). -/
def missingFamily (ns : String) : Bool :=
  ns = "Properties.OrchestratorProfile" ||
  ns = "Properties.OrchestratorProfile.OrchestratorType" ||
  ns = "Properties.MasterProfile" ||
  ns = "Properties.MasterProfile.DNSPrefix" ||
  ns = "Properties.MasterProfile.VMSize" ||
  ns = "Properties.LinuxProfile" ||
  ns = "Properties.ServicePrincipalProfile.ClientID" ||
  ns = "Properties.WindowsProfile.AdminUsername" ||
  ns = "Properties.WindowsProfile.AdminPassword"

/-- Whether `ns` matches any case of the exact-match stage (the outer
`switch` of `HandleValidationErrors` before its `default`). -/
def exactMatch (ns : String) : Bool :=
  missingFamily ns ||
  ns = "Properties.MasterProfile.Count" ||
  ns = "Properties.MasterProfile.OSDiskSizeGB" ||
  ns = "Properties.MasterProfile.IPAddressCount" ||
  ns = "Properties.MasterProfile.StorageProfile"

/-- Whether `ns` matches any case of the agent-pool pattern stage (the
inner `switch` under the `Properties.AgentPoolProfiles` prefix test). -/
def patternMatch (ns : String) : Bool :=
  goStartsWith ns "Properties.AgentPoolProfiles" &&
  (goEndsWith ns ".Name" || goEndsWith ns "VMSize" ||
   goEndsWith ns ".Count" || goEndsWith ns ".OSDiskSizeGB" ||
   goContainsStr ns ".Ports" || goEndsWith ns ".StorageProfile" ||
   goContainsStr ns ".DiskSizesGB" || goEndsWith ns ".IPAddressCount")

/-- The os-disk-size range message shared by the master-profile exact case
and the agent-pool `.OSDiskSizeGB` pattern case. -/
def diskSizeMessage (c : VConsts) (n : Int) : String :=
  "Invalid os disk size of " ++ toString n ++ " specified.  The range of valid values are [" ++
    toString c.MinDiskSizeGB ++ ", " ++ toString c.MaxDiskSizeGB ++ "]"

/-- `HandleValidationErrors` from `helper.go`.  `e[0]` on an empty batch
panics (`none`); the failed type assertions `err.Value().(int)` /
`err.Value().(string)` panic (`none`); otherwise the returned error message
is `some` message. -/
def HandleValidationErrors (c : VConsts) (e : List VFailure) : Option String :=
  match e with
  | [] => none
  | err :: _ =>
    let ns := err.Namespace
    if missingFamily ns then some ("missing " ++ ns)
    else if ns = "Properties.MasterProfile.Count" then
      some "MasterProfile count needs to be 1, 3, or 5"
    else if ns = "Properties.MasterProfile.OSDiskSizeGB" then
      match err.Value with
      | GoValue.int n => some (diskSizeMessage c n)
      | _ => none
    else if ns = "Properties.MasterProfile.IPAddressCount" then
      some ("MasterProfile.IPAddressCount needs to be in the range [" ++
        toString c.MinIPAddressCount ++ "," ++ toString c.MaxIPAddressCount ++ "]")
    else if ns = "Properties.MasterProfile.StorageProfile" then
      match err.Value with
      | GoValue.str s =>
        some ("Unknown storageProfile \x27" ++ s ++ "\x27. Specify either " ++
          StorageAccount ++ " or " ++ ManagedDisks)
      | _ => none
    else if goStartsWith ns "Properties.AgentPoolProfiles" then
      if goEndsWith ns ".Name" || goEndsWith ns "VMSize" then
        some ("missing " ++ ns)
      else if goEndsWith ns ".Count" then
        some ("AgentPoolProfile count needs to be in the range [" ++
          toString c.MinAgentCount ++ "," ++ toString c.MaxAgentCount ++ "]")
      else if goEndsWith ns ".OSDiskSizeGB" then
        match err.Value with
        | GoValue.int n => some (diskSizeMessage c n)
        | _ => none
      else if goContainsStr ns ".Ports" then
        some ("AgentPoolProfile Ports must be in the range[" ++
          toString c.MinPort ++ ", " ++ toString c.MaxPort ++ "]")
      else if goEndsWith ns ".StorageProfile" then
        match err.Value with
        | GoValue.str s =>
          some ("Unknown storageProfile \x27" ++ s ++ "\x27. Specify " ++
            StorageAccount ++ ", " ++ ManagedDisks ++ ", or " ++ Ephemeral)
        | _ => none
      else if goContainsStr ns ".DiskSizesGB" then
        some ("A maximum of " ++ toString c.MaxDisks ++
          " disks may be specified, The range of valid disk size values are [" ++
          toString c.MinDiskSizeGB ++ ", " ++ toString c.MaxDiskSizeGB ++ "]")
      else if goEndsWith ns ".IPAddressCount" then
        some ("AgentPoolProfile.IPAddressCount needs to be in the range [" ++
          toString c.MinIPAddressCount ++ "," ++ toString c.MaxIPAddressCount ++ "]")
      else some (fallbackMessage ns e)
    else some (fallbackMessage ns e)

/-- A concrete instantiation of the bounds constants, used by witnesses. -/
def sampleConsts : VConsts :=
  { MinDiskSizeGB := 1, MaxDiskSizeGB := 2048,
    MinIPAddressCount := 1, MaxIPAddressCount := 256,
    MinAgentCount := 1, MaxAgentCount := 1000,
    MinPort := 1, MaxPort := 65535, MaxDisks := 4 }

/-- A Go `error` value. -/
abbrev GoErr : Type := String

/-- One entry of the docker `runtimes` registry
(`DockerDaemonRuntime`; its schema is declared outside the file under
verification — modelled from the spec with the two fields
`DockerNvidiaOverride` sets: binary path and argument list, where the
argument list distinguishes Go nil (`none`) from an empty slice
(`some []`)). -/
structure DockerDaemonRuntime : Type where
  Path : String
  RuntimeArgs : Option (List String)
deriving DecidableEq

/-- Modelled from the spec: the docker (runtime-engine) config schema,
declared outside the file under verification, restricted to the fields the
code under verification reads or writes: the data directory (`DataRoot`),
the default runtime name, and the possibly-nil runtime registry map
(`none` = nil Go map). -/
structure DockerConfig : Type where
  DataRoot : String
  DefaultRuntime : String
  DockerDaemonRuntimes : Option (List (String × DockerDaemonRuntime))
deriving DecidableEq

/-- Modelled from the spec: the CNI sub-table of the containerd CRI plugin
config. -/
structure CNIConfig : Type where
  ConfTemplate : String
deriving DecidableEq

/-- Modelled from the spec: the `io.containerd.grpc.v1.cri` plugin config. -/
structure CriPlugin : Type where
  SandboxImage : String
  CNI : CNIConfig
deriving DecidableEq

/-- Modelled from the spec: the plugins table of the containerd config. -/
structure ContainerdPlugins : Type where
  IoContainerdGrpcV1Cri : CriPlugin
deriving DecidableEq

/-- Modelled from the spec: the containerd (image-pulling-daemon) config
schema, declared outside the file under verification, restricted to the
fields the code under verification reads or writes: the data directory
(`Root`) and the plugins table. -/
structure ContainerdConfig : Type where
  Root : String
  Plugins : ContainerdPlugins
deriving DecidableEq

/-- Modelled from the spec: `GetDefaultDockerConfig`, the external
constructor of the fully-populated docker defaults. -/
def GetDefaultDockerConfig : DockerConfig :=
  { DataRoot := "/var/lib/docker",
    DefaultRuntime := "runc",
    DockerDaemonRuntimes := none }

/-- Modelled from the spec: `GetDefaultContainerdConfig`, the external
constructor of the fully-populated containerd defaults. -/
def GetDefaultContainerdConfig : ContainerdConfig :=
  { Root := "/var/lib/containerd",
    Plugins :=
      { IoContainerdGrpcV1Cri :=
        { SandboxImage := "mcr.microsoft.com/oss/kubernetes/pause:1.3.1",
          CNI := { ConfTemplate := "" } } } }

/-- Modelled from the spec: `ContainerDataDirKey`, the fixed key of the
data-directory named option (a package constant declared outside the file
under verification). -/
def ContainerDataDirKey : String := "dataDir"

/-- Go map lookup on an association list. -/
def goMapGet {α : Type} : List (String × α) → String → Option α
  | [], _ => none
  | (k, v) :: rest, key => if k = key then some v else goMapGet rest key

/-- Go map lookup on a possibly-nil map (lookup on a nil map returns the
zero value / not-ok, i.e. `none`). -/
def goOptMapGet {α : Type} (m : Option (List (String × α))) (key : String) : Option α :=
  match m with
  | none => none
  | some l => goMapGet l key

/-- Go map assignment `m[k] = v`: replace the binding of `k` if present,
otherwise append it. -/
def mapInsert {α : Type} : List (String × α) → String → α → List (String × α)
  | [], k, v => [(k, v)]
  | (k2, v2) :: rest, k, v =>
    if k2 = k then (k, v) :: rest else (k2, v2) :: mapInsert rest k v

/-- The override-application loop shared by `GetDockerConfig` and
`GetContainerdConfig`: fold the overrides left to right over the config,
stopping at the first error. -/
def applyOverrides {σ : Type} : σ → List (σ → Except GoErr σ) → Except GoErr σ
  | c, [] => Except.ok c
  | c, o :: rest =>
    match o c with
    | Except.error e => Except.error e
    | Except.ok c2 => applyOverrides c2 rest

/-- JSON/TOML string quoting (escaping is external; the paths and names
involved contain no escapes). -/
def q (s : String) : String := "\"" ++ s ++ "\""

/-- Modelled from the spec: JSON rendering of one runtime-registry entry. -/
def marshalRuntime (r : DockerDaemonRuntime) : String :=
  "\x7b" ++ q "path" ++ ": " ++ q r.Path ++ ", " ++ q "runtimeArgs" ++ ": " ++
    (match r.RuntimeArgs with
     | none => "null"
     | some args => "[" ++ joinWith ", " (args.map q) ++ "]") ++ "\x7d"

/-- Modelled from the spec: JSON rendering of the runtime registry
(a nil Go map marshals to `null`). -/
def marshalRuntimes (m : Option (List (String × DockerDaemonRuntime))) : String :=
  match m with
  | none => "null"
  | some l =>
    "\x7b" ++ joinWith ", " (l.map (fun kv => q kv.1 ++ ": " ++ marshalRuntime kv.2)) ++ "\x7d"

/-- Modelled from the spec: `json.MarshalIndent(config, "", "    ")` of the
docker config — a 4-space-indented JSON object over the modelled fields. -/
def marshalDockerConfig (c : DockerConfig) : String :=
  "\x7b\n    " ++ q "data-root" ++ ": " ++ q c.DataRoot ++ ",\n    " ++
    q "default-runtime" ++ ": " ++ q c.DefaultRuntime ++ ",\n    " ++
    q "runtimes" ++ ": " ++ marshalRuntimes c.DockerDaemonRuntimes ++ "\n\x7d"

/-- Modelled from the spec: `toml.NewEncoder(buf).Encode(config)` of the
containerd config — a TOML document over the modelled fields. -/
def marshalContainerdConfig (c : ContainerdConfig) : String :=
  "root = " ++ q c.Root ++ "\n\n[plugins]\n\n  [plugins." ++
    q "io.containerd.grpc.v1.cri" ++ "]\n    sandbox_image = " ++
    q c.Plugins.IoContainerdGrpcV1Cri.SandboxImage ++
    "\n\n    [plugins." ++ q "io.containerd.grpc.v1.cri" ++
    ".cni]\n      conf_template = " ++
    q c.Plugins.IoContainerdGrpcV1Cri.CNI.ConfTemplate ++ "\n"

/-- `GetDockerConfig` from `helper.go`: defaults, then overrides in order
(aborting on the first error with an empty output), then the data-directory
named option, then serialization.  The Go result pair `(string, error)` is
`String × Option GoErr`. -/
def GetDockerConfig (opts : List (String × String))
    (overrides : List (DockerConfig → Except GoErr DockerConfig)) :
    String × Option GoErr :=
  match applyOverrides GetDefaultDockerConfig overrides with
  | Except.error e => ("", some e)
  | Except.ok config =>
    let config2 :=
      match goMapGet opts ContainerDataDirKey with
      | some dataDir => { config with DataRoot := dataDir }
      | none => config
    (marshalDockerConfig config2, none)

/-- `GetContainerdConfig` from `helper.go`: defaults, then overrides in
order (aborting on the first error with an empty output), then the
data-directory named option, then serialization. -/
def GetContainerdConfig (opts : List (String × String))
    (overrides : List (ContainerdConfig → Except GoErr ContainerdConfig)) :
    String × Option GoErr :=
  match applyOverrides GetDefaultContainerdConfig overrides with
  | Except.error e => ("", some e)
  | Except.ok config =>
    let config2 :=
      match goMapGet opts ContainerDataDirKey with
      | some dataDir => { config with Root := dataDir }
      | none => config
    (marshalContainerdConfig config2, none)

/-- `ContainerdKubenetOverride` from `helper.go`. -/
def ContainerdKubenetOverride (config : ContainerdConfig) :
    Except GoErr ContainerdConfig :=
  Except.ok { config with
    Plugins.IoContainerdGrpcV1Cri.CNI.ConfTemplate :=
      "/etc/containerd/kubenet_template.conf" }

/-- `ContainerdSandboxImageOverrider` from `helper.go`. -/
def ContainerdSandboxImageOverrider (image : String) :
    ContainerdConfig → Except GoErr ContainerdConfig :=
  fun config =>
    Except.ok { config with Plugins.IoContainerdGrpcV1Cri.SandboxImage := image }

/-- Literal-matching step of the modelled decoders: consume the expected
literal characters from the input, returning the remainder. -/
def expectLit : List Char → List Char → Option (List Char)
  | [], s => some s
  | _ :: _, [] => none
  | l :: lit, c :: s => if c = l then expectLit lit s else none

/-- Quoted-value step of the modelled decoders: consume characters up to
the next double quote (the value; escapes are outside the modelled
subset), returning the value and the remainder past the quote. -/
def readUntilQuote : List Char → Option (List Char × List Char)
  | [] => none
  | c :: rest =>
    if c = '"' then some ([], rest)
    else
      match readUntilQuote rest with
      | some (v, r) => some (c :: v, r)
      | none => none

/-- Modelled from the spec: the external JSON decoder for the docker
config (the subset covering the modelled schema, with the runtime registry
restricted to `null` or empty — all the round-trip of the defaults
needs). -/
def parseDockerConfig (s : String) : Option DockerConfig :=
  match expectLit ("\x7b\n    \"data-root\": \"").data s.data with
  | none => none
  | some r1 =>
    match readUntilQuote r1 with
    | none => none
    | some (dv, r2) =>
      match expectLit (",\n    \"default-runtime\": \"").data r2 with
      | none => none
      | some r3 =>
        match readUntilQuote r3 with
        | none => none
        | some (rv, r4) =>
          match expectLit (",\n    \"runtimes\": ").data r4 with
          | none => none
          | some r5 =>
            match expectLit ("null\n\x7d").data r5 with
            | some [] =>
              some { DataRoot := String.mk dv, DefaultRuntime := String.mk rv,
                     DockerDaemonRuntimes := none }
            | _ =>
              match expectLit ("\x7b\x7d\n\x7d").data r5 with
              | some [] =>
                some { DataRoot := String.mk dv, DefaultRuntime := String.mk rv,
                       DockerDaemonRuntimes := some [] }
              | _ => none

/-- Modelled from the spec: the external TOML decoder for the containerd
config (the subset covering the modelled schema). -/
def parseContainerdConfig (s : String) : Option ContainerdConfig :=
  match expectLit ("root = \"").data s.data with
  | none => none
  | some r1 =>
    match readUntilQuote r1 with
    | none => none
    | some (rootv, r2) =>
      match expectLit ("\n\n[plugins]\n\n  [plugins.\"io.containerd.grpc.v1.cri\"]\n    sandbox_image = \"").data r2 with
      | none => none
      | some r3 =>
        match readUntilQuote r3 with
        | none => none
        | some (img, r4) =>
          match expectLit ("\n\n    [plugins.\"io.containerd.grpc.v1.cri\".cni]\n      conf_template = \"").data r4 with
          | none => none
          | some r5 =>
            match readUntilQuote r5 with
            | none => none
            | some (tpl, r6) =>
              match expectLit ("\n").data r6 with
              | some [] =>
                some { Root := String.mk rootv,
                       Plugins :=
                         { IoContainerdGrpcV1Cri :=
                           { SandboxImage := String.mk img,
                             CNI := { ConfTemplate := String.mk tpl } } } }
              | _ => none

/-- A sample override that writes the docker data-directory field, used in
the order-sensitivity and option-dominance statements. -/
def setDockerDataRoot (v : String) : DockerConfig → Except GoErr DockerConfig :=
  fun c => Except.ok { c with DataRoot := v }

/-- A sample override that writes the containerd data-directory field. -/
def setContainerdRoot (v : String) : ContainerdConfig → Except GoErr ContainerdConfig :=
  fun c => Except.ok { c with Root := v }

/-- A sample override that fails with a given error. -/
def failingDockerOverride (e : GoErr) : DockerConfig → Except GoErr DockerConfig :=
  fun _ => Except.error e

/-- A sample failing containerd override. -/
def failingContainerdOverride (e : GoErr) : ContainerdConfig → Except GoErr ContainerdConfig :=
  fun _ => Except.error e

/-- `DockerNvidiaOverride` from `helper.go`: allocate the runtime registry
when it is nil, set the default runtime to `nvidia`, and register the
nvidia runtime binary with an empty (non-nil) argument list. -/
def DockerNvidiaOverride (config : DockerConfig) : Except GoErr DockerConfig :=
  let m := match config.DockerDaemonRuntimes with
    | none => []
    | some m0 => m0
  Except.ok { config with
    DefaultRuntime := "nvidia",
    DockerDaemonRuntimes := some (mapInsert m "nvidia"
      { Path := "/usr/bin/nvidia-container-runtime", RuntimeArgs := some [] }) }


/-- The exact-match stage of `HandleValidationErrors` on its own (the
outer `switch` before its `default` case): `some` when one of the exact
cases fires, `none` otherwise. -/
def exactStageResult (c : VConsts) (err : VFailure) : Option String :=
  let ns := err.Namespace
  if missingFamily ns then some ("missing " ++ ns)
  else if ns = "Properties.MasterProfile.Count" then
    some "MasterProfile count needs to be 1, 3, or 5"
  else if ns = "Properties.MasterProfile.OSDiskSizeGB" then
    match err.Value with
    | GoValue.int n => some (diskSizeMessage c n)
    | _ => none
  else if ns = "Properties.MasterProfile.IPAddressCount" then
    some ("MasterProfile.IPAddressCount needs to be in the range [" ++
      toString c.MinIPAddressCount ++ "," ++ toString c.MaxIPAddressCount ++ "]")
  else if ns = "Properties.MasterProfile.StorageProfile" then
    match err.Value with
    | GoValue.str s =>
      some ("Unknown storageProfile \x27" ++ s ++ "\x27. Specify either " ++
        StorageAccount ++ " or " ++ ManagedDisks)
    | _ => none
  else none

/-- Which dynamic type (`some true` = int, `some false` = string,
`none` = no assertion) the branch of `HandleValidationErrors` selected by
`ns` asserts on the offending value, following the dispatch order of the
code. -/
def assertedType (ns : String) : Option Bool :=
  if missingFamily ns then none
  else if ns = "Properties.MasterProfile.Count" then none
  else if ns = "Properties.MasterProfile.OSDiskSizeGB" then some true
  else if ns = "Properties.MasterProfile.IPAddressCount" then none
  else if ns = "Properties.MasterProfile.StorageProfile" then some false
  else if goStartsWith ns "Properties.AgentPoolProfiles" then
    if goEndsWith ns ".Name" || goEndsWith ns "VMSize" then none
    else if goEndsWith ns ".Count" then none
    else if goEndsWith ns ".OSDiskSizeGB" then some true
    else if goContainsStr ns ".Ports" then none
    else if goEndsWith ns ".StorageProfile" then some false
    else none
  else none

/-- Whether the offending value of a failure has the dynamic type that the
message template chosen for its path asserts (always true for paths whose
template asserts no type). -/
def valueTypeMatches (f : VFailure) : Bool :=
  match assertedType f.Namespace, f.Value with
  | some true, GoValue.int _ => true
  | some false, GoValue.str _ => true
  | none, _ => true
  | _, _ => false

/-! Helper lemmas. -/

lemma containsSub_append_mid (pre needle suf : List Char) :
    containsSub needle (pre ++ (needle ++ suf)) = true := by
  induction pre with
  | nil =>
    simp only [List.nil_append]
    have hpre : needle.isPrefixOf (needle ++ suf) = true := by
      rw [List.isPrefixOf_iff_prefix]
      exact List.prefix_append needle suf
    cases h : needle ++ suf with
    | nil =>
      rcases List.append_eq_nil.1 h with ⟨h1, _⟩
      subst h1
      simp [containsSub]
    | cons c2 t2 =>
      rw [containsSub, ← h, hpre]
      simp
  | cons c t ih =>
    rw [List.cons_append, containsSub, ih]
    simp

lemma containsSub_append_end (pre needle : List Char) :
    containsSub needle (pre ++ needle) = true := by
  have := containsSub_append_mid pre needle []
  simpa using this

lemma str_mid_inj2 (pre a suf1 suf2 : String)
    (h : pre ++ (a ++ suf1) = pre ++ (a ++ suf2)) : suf1 = suf2 := by
  have h2 := congrArg String.data h
  simp only [String.data_append] at h2
  have h3 := List.append_cancel_left h2
  have h4 := List.append_cancel_left h3
  cases suf1; cases suf2; simp_all

lemma marshalDockerConfig_dataRoot_inj (c1 c2 : DockerConfig)
    (hrt : c1.DefaultRuntime = c2.DefaultRuntime)
    (hm : c1.DockerDaemonRuntimes = c2.DockerDaemonRuntimes)
    (h : marshalDockerConfig c1 = marshalDockerConfig c2) : c1.DataRoot = c2.DataRoot := by
  have h2 := congrArg String.data h
  simp only [marshalDockerConfig, q, String.data_append, List.append_assoc, hrt, hm] at h2
  have e1 := List.append_cancel_left h2
  have e2 := List.append_cancel_left e1
  have e3 := List.append_cancel_left e2
  have e4 := List.append_cancel_left e3
  have e5 := List.append_cancel_left e4
  have e6 := List.append_cancel_left e5
  have e7 := List.append_cancel_right e6
  cases h1 : c1.DataRoot
  cases h3 : c2.DataRoot
  simp_all

lemma marshalContainerdConfig_root_inj (c1 c2 : ContainerdConfig)
    (hp : c1.Plugins = c2.Plugins)
    (h : marshalContainerdConfig c1 = marshalContainerdConfig c2) : c1.Root = c2.Root := by
  have h2 := congrArg String.data h
  simp only [marshalContainerdConfig, q, String.data_append, List.append_assoc, hp] at h2
  have e1 := List.append_cancel_left h2
  have e2 := List.append_cancel_left e1
  have e3 := List.append_cancel_right e2
  cases h1 : c1.Root
  cases h3 : c2.Root
  simp_all

lemma applyOverrides_append {σ : Type} (c : σ) (l1 l2 : List (σ → Except GoErr σ)) :
    applyOverrides c (l1 ++ l2) =
      match applyOverrides c l1 with
      | Except.error e => Except.error e
      | Except.ok c2 => applyOverrides c2 l2 := by
  induction l1 generalizing c with
  | nil => simp [applyOverrides]
  | cons o rest ih =>
    rw [List.cons_append, applyOverrides, applyOverrides]
    cases o c with
    | error e => rfl
    | ok c2 => exact ih c2

lemma mapInsert_get_same {α : Type} (m : List (String × α)) (k : String) (v : α) :
    goMapGet (mapInsert m k v) k = some v := by
  induction m with
  | nil => simp [mapInsert, goMapGet]
  | cons kv rest ih =>
    obtain ⟨k2, v2⟩ := kv
    by_cases h : k2 = k
    · subst h
      simp [mapInsert, goMapGet]
    · simp [mapInsert, goMapGet, h, ih]

lemma mapInsert_get_other {α : Type} (m : List (String × α)) (k key : String) (v : α)
    (hk : k ≠ key) : goMapGet (mapInsert m key v) k = goMapGet m k := by
  induction m with
  | nil => simp [mapInsert, goMapGet, Ne.symm hk]
  | cons kv rest ih =>
    obtain ⟨k2, v2⟩ := kv
    by_cases h : k2 = key
    · subst h
      simp [mapInsert, goMapGet, Ne.symm hk]
    · simp only [mapInsert, if_neg h, goMapGet]
      by_cases h2 : k2 = k
      · simp [h2]
      · simp [h2, ih]

lemma pool_not_exact (ns : String)
    (hpool : goStartsWith ns "Properties.AgentPoolProfiles" = true) :
    exactMatch ns = false := by
  rw [Bool.eq_false_iff]
  intro hc
  simp only [exactMatch, missingFamily, Bool.or_eq_true, decide_eq_true_eq] at hc
  rcases hc with ((((((((((((h | h) | h) | h) | h) | h) | h) | h) | h) | h) | h) | h) | h) <;>
    subst h <;> exact absurd hpool (by decide)

lemma hve_pool_char (c : VConsts) (ns : String) (v : GoValue) (rest : List VFailure)
    (hpool : goStartsWith ns "Properties.AgentPoolProfiles" = true) :
    HandleValidationErrors c (⟨ns, v⟩ :: rest) =
      (if goEndsWith ns ".Name" || goEndsWith ns "VMSize" then
        some ("missing " ++ ns)
      else if goEndsWith ns ".Count" then
        some ("AgentPoolProfile count needs to be in the range [" ++
          toString c.MinAgentCount ++ "," ++ toString c.MaxAgentCount ++ "]")
      else if goEndsWith ns ".OSDiskSizeGB" then
        match v with
        | GoValue.int n => some (diskSizeMessage c n)
        | _ => none
      else if goContainsStr ns ".Ports" then
        some ("AgentPoolProfile Ports must be in the range[" ++
          toString c.MinPort ++ ", " ++ toString c.MaxPort ++ "]")
      else if goEndsWith ns ".StorageProfile" then
        match v with
        | GoValue.str s =>
          some ("Unknown storageProfile \x27" ++ s ++ "\x27. Specify " ++
            StorageAccount ++ ", " ++ ManagedDisks ++ ", or " ++ Ephemeral)
        | _ => none
      else if goContainsStr ns ".DiskSizesGB" then
        some ("A maximum of " ++ toString c.MaxDisks ++
          " disks may be specified, The range of valid disk size values are [" ++
          toString c.MinDiskSizeGB ++ ", " ++ toString c.MaxDiskSizeGB ++ "]")
      else if goEndsWith ns ".IPAddressCount" then
        some ("AgentPoolProfile.IPAddressCount needs to be in the range [" ++
          toString c.MinIPAddressCount ++ "," ++ toString c.MaxIPAddressCount ++ "]")
      else some (fallbackMessage ns (⟨ns, v⟩ :: rest))) := by
  have hex := pool_not_exact ns hpool
  simp only [exactMatch, missingFamily, Bool.or_eq_false_iff, decide_eq_false_iff_not] at hex
  obtain ⟨⟨⟨⟨⟨⟨⟨⟨⟨⟨⟨⟨h1, h2⟩, h3⟩, h4⟩, h5⟩, h6⟩, h7⟩, h8⟩, h9⟩, h10⟩, h11⟩, h12⟩, h13⟩ := hex
  simp only [HandleValidationErrors]
  rw [if_neg (by simp [missingFamily, h1, h2, h3, h4, h5, h6, h7, h8, h9] :
        ¬ (missingFamily ns = true))]
  rw [if_neg h10, if_neg h11, if_neg h12, if_neg h13, if_pos hpool]

/-! Claim theorems. -/

/-- Claim C1: for every FieldPath in the fixed exact-match table of
`HandleValidationErrors`, translating a failure batch whose first failure
carries that path yields exactly the documented message template for that
path, with the interpolated numeric bounds equal to the configured
constants (`MinDiskSizeGB`/`MaxDiskSizeGB`,
`MinIPAddressCount`/`MaxIPAddressCount`), for all values of those
constants, all offending values of the expected type, and all trailing
batch elements. -/
theorem c1_exact_table_messages (c : VConsts) (v : GoValue) (n : Int) (s : String)
    (rest : List VFailure) :
    HandleValidationErrors c (⟨"Properties.OrchestratorProfile", v⟩ :: rest) =
      some "missing Properties.OrchestratorProfile" ∧
    HandleValidationErrors c (⟨"Properties.OrchestratorProfile.OrchestratorType", v⟩ :: rest) =
      some "missing Properties.OrchestratorProfile.OrchestratorType" ∧
    HandleValidationErrors c (⟨"Properties.MasterProfile", v⟩ :: rest) =
      some "missing Properties.MasterProfile" ∧
    HandleValidationErrors c (⟨"Properties.MasterProfile.DNSPrefix", v⟩ :: rest) =
      some "missing Properties.MasterProfile.DNSPrefix" ∧
    HandleValidationErrors c (⟨"Properties.MasterProfile.VMSize", v⟩ :: rest) =
      some "missing Properties.MasterProfile.VMSize" ∧
    HandleValidationErrors c (⟨"Properties.LinuxProfile", v⟩ :: rest) =
      some "missing Properties.LinuxProfile" ∧
    HandleValidationErrors c (⟨"Properties.ServicePrincipalProfile.ClientID", v⟩ :: rest) =
      some "missing Properties.ServicePrincipalProfile.ClientID" ∧
    HandleValidationErrors c (⟨"Properties.WindowsProfile.AdminUsername", v⟩ :: rest) =
      some "missing Properties.WindowsProfile.AdminUsername" ∧
    HandleValidationErrors c (⟨"Properties.WindowsProfile.AdminPassword", v⟩ :: rest) =
      some "missing Properties.WindowsProfile.AdminPassword" ∧
    HandleValidationErrors c (⟨"Properties.MasterProfile.Count", v⟩ :: rest) =
      some "MasterProfile count needs to be 1, 3, or 5" ∧
    HandleValidationErrors c (⟨"Properties.MasterProfile.OSDiskSizeGB", GoValue.int n⟩ :: rest) =
      some ("Invalid os disk size of " ++ toString n ++
        " specified.  The range of valid values are [" ++ toString c.MinDiskSizeGB ++
        ", " ++ toString c.MaxDiskSizeGB ++ "]") ∧
    HandleValidationErrors c (⟨"Properties.MasterProfile.IPAddressCount", v⟩ :: rest) =
      some ("MasterProfile.IPAddressCount needs to be in the range [" ++
        toString c.MinIPAddressCount ++ "," ++ toString c.MaxIPAddressCount ++ "]") ∧
    HandleValidationErrors c (⟨"Properties.MasterProfile.StorageProfile", GoValue.str s⟩ :: rest) =
      some ("Unknown storageProfile \x27" ++ s ++ "\x27. Specify either " ++
        StorageAccount ++ " or " ++ ManagedDisks) :=
  ⟨rfl, rfl, rfl, rfl, rfl, rfl, rfl, rfl, rfl, rfl, rfl, rfl, rfl⟩

/-- Claim C5: the data-directory named option dominates: when the options
mapping carries `ContainerDataDirKey`, its value overwrites the
data-directory field (`DataRoot` / `Root`) after all overrides, so it
appears in the serialized output regardless of what an override set the
field to; when the key is absent the field keeps the override's value. -/
theorem c5_option_dominant (v d : String) :
    GetDockerConfig [(ContainerDataDirKey, d)] [setDockerDataRoot v] =
      (marshalDockerConfig { GetDefaultDockerConfig with DataRoot := d }, none) ∧
    GetDockerConfig [] [setDockerDataRoot v] =
      (marshalDockerConfig { GetDefaultDockerConfig with DataRoot := v }, none) ∧
    GetContainerdConfig [(ContainerDataDirKey, d)] [setContainerdRoot v] =
      (marshalContainerdConfig { GetDefaultContainerdConfig with Root := d }, none) ∧
    GetContainerdConfig [] [setContainerdRoot v] =
      (marshalContainerdConfig { GetDefaultContainerdConfig with Root := v }, none) :=
  ⟨rfl, rfl, rfl, rfl⟩

/-- Claim C9: round-trip of the defaults: composing each config kind with
no overrides and no options serializes the default configuration (JSON for
docker, TOML for containerd) with a nil error, and the corresponding
decoder reconstructs a value equal to the original defaults. -/
theorem c9_roundtrip_defaults :
    GetDockerConfig [] [] = (marshalDockerConfig GetDefaultDockerConfig, none) ∧
    parseDockerConfig (GetDockerConfig [] []).1 = some GetDefaultDockerConfig ∧
    GetContainerdConfig [] [] = (marshalContainerdConfig GetDefaultContainerdConfig, none) ∧
    parseContainerdConfig (GetContainerdConfig [] []).1 = some GetDefaultContainerdConfig :=
  ⟨rfl, by decide, rfl, by decide⟩

/-- Claim C4: override composition is order-sensitive: two overrides
writing the same field compose left-to-right, so the serialized output
reflects the value written by the later override, not the earlier one
(for both config kinds). -/
theorem c4_override_order_sensitive (v1 v2 : String) (hne : v1 ≠ v2) :
    GetDockerConfig [] [setDockerDataRoot v1, setDockerDataRoot v2] =
      (marshalDockerConfig { GetDefaultDockerConfig with DataRoot := v2 }, none) ∧
    (GetDockerConfig [] [setDockerDataRoot v1, setDockerDataRoot v2]).1 ≠
      marshalDockerConfig { GetDefaultDockerConfig with DataRoot := v1 } ∧
    GetContainerdConfig [] [setContainerdRoot v1, setContainerdRoot v2] =
      (marshalContainerdConfig { GetDefaultContainerdConfig with Root := v2 }, none) ∧
    (GetContainerdConfig [] [setContainerdRoot v1, setContainerdRoot v2]).1 ≠
      marshalContainerdConfig { GetDefaultContainerdConfig with Root := v1 } := by
  have hd : GetDockerConfig [] [setDockerDataRoot v1, setDockerDataRoot v2] =
      (marshalDockerConfig { GetDefaultDockerConfig with DataRoot := v2 }, none) := rfl
  have hc : GetContainerdConfig [] [setContainerdRoot v1, setContainerdRoot v2] =
      (marshalContainerdConfig { GetDefaultContainerdConfig with Root := v2 }, none) := rfl
  refine ⟨hd, ?_, hc, ?_⟩
  · intro h
    rw [hd] at h
    have h3 := marshalDockerConfig_dataRoot_inj
      { GetDefaultDockerConfig with DataRoot := v2 }
      { GetDefaultDockerConfig with DataRoot := v1 } rfl rfl h
    exact hne (show v1 = v2 from h3.symm)
  · intro h
    rw [hc] at h
    have h3 := marshalContainerdConfig_root_inj
      { GetDefaultContainerdConfig with Root := v2 }
      { GetDefaultContainerdConfig with Root := v1 } rfl h
    exact hne (show v1 = v2 from h3.symm)

/-- Witness for C4 at the concrete override values `"a"` and `"b"`. -/
theorem c4_override_order_sensitive_witness :
    GetDockerConfig [] [setDockerDataRoot "a", setDockerDataRoot "b"] =
      (marshalDockerConfig { GetDefaultDockerConfig with DataRoot := "b" }, none) ∧
    (GetDockerConfig [] [setDockerDataRoot "a", setDockerDataRoot "b"]).1 ≠
      marshalDockerConfig { GetDefaultDockerConfig with DataRoot := "a" } ∧
    GetContainerdConfig [] [setContainerdRoot "a", setContainerdRoot "b"] =
      (marshalContainerdConfig { GetDefaultContainerdConfig with Root := "b" }, none) ∧
    (GetContainerdConfig [] [setContainerdRoot "a", setContainerdRoot "b"]).1 ≠
      marshalContainerdConfig { GetDefaultContainerdConfig with Root := "a" } :=
  c4_override_order_sensitive "a" "b" (by decide)

/-- Claim C6: if an override fails, the composer returns exactly that
error with an empty output string, no later override is applied (the
result does not depend on the overrides after the failing one) and no
serialization is performed, for both config kinds. -/
theorem c6_override_error_propagation (e1 e2 : GoErr) (opts1 opts2 : List (String × String))
    (dpre dpost : List (DockerConfig → Except GoErr DockerConfig)) (dc : DockerConfig)
    (hd : applyOverrides GetDefaultDockerConfig dpre = Except.ok dc)
    (cpre cpost : List (ContainerdConfig → Except GoErr ContainerdConfig)) (cc : ContainerdConfig)
    (hc : applyOverrides GetDefaultContainerdConfig cpre = Except.ok cc) :
    GetDockerConfig opts1 (dpre ++ failingDockerOverride e1 :: dpost) = ("", some e1) ∧
    GetContainerdConfig opts2 (cpre ++ failingContainerdOverride e2 :: cpost) = ("", some e2) := by
  constructor
  · unfold GetDockerConfig
    rw [applyOverrides_append, hd]
    rfl
  · unfold GetContainerdConfig
    rw [applyOverrides_append, hc]
    rfl

/-- Witness for C6: a single failing override, applied after an empty
succeeding segment. -/
theorem c6_override_error_propagation_witness :
    GetDockerConfig [] ([] ++ failingDockerOverride "boom" :: []) = ("", some "boom") ∧
    GetContainerdConfig [] ([] ++ failingContainerdOverride "bang" :: []) = ("", some "bang") :=
  c6_override_error_propagation "boom" "bang" [] [] [] [] GetDefaultDockerConfig rfl
    [] [] GetDefaultContainerdConfig rfl

/-- Claim C10: `DockerNvidiaOverride` always succeeds (nil error), sets
the default runtime to `nvidia`, maps the `nvidia` registry key to the
fixed binary path with an empty non-nil argument list, allocates the
registry only when it is nil (otherwise it updates the existing entries in
place), and leaves every other field and every registry entry under
another key unchanged. -/
theorem c10_nvidia_override_frame (config : DockerConfig) (k : String) (hk : k ≠ "nvidia") :
    ∃ c2 : DockerConfig,
      DockerNvidiaOverride config = Except.ok c2 ∧
      c2.DefaultRuntime = "nvidia" ∧
      c2.DataRoot = config.DataRoot ∧
      goOptMapGet c2.DockerDaemonRuntimes "nvidia" =
        some { Path := "/usr/bin/nvidia-container-runtime", RuntimeArgs := some [] } ∧
      goOptMapGet c2.DockerDaemonRuntimes k = goOptMapGet config.DockerDaemonRuntimes k ∧
      c2.DockerDaemonRuntimes ≠ none ∧
      (config.DockerDaemonRuntimes = none →
        c2.DockerDaemonRuntimes =
          some [("nvidia",
            { Path := "/usr/bin/nvidia-container-runtime", RuntimeArgs := some [] })]) ∧
      (∀ m0, config.DockerDaemonRuntimes = some m0 →
        c2.DockerDaemonRuntimes =
          some (mapInsert m0 "nvidia"
            { Path := "/usr/bin/nvidia-container-runtime", RuntimeArgs := some [] })) := by
  obtain ⟨dr, drt, m⟩ := config
  cases m with
  | none =>
    refine ⟨_, rfl, rfl, rfl, rfl, ?_, by simp, fun _ => rfl, ?_⟩
    · simp [goOptMapGet, goMapGet, Ne.symm hk]
    · intro m0 h
      exact absurd h (by simp)
  | some m0 =>
    refine ⟨_, rfl, rfl, rfl, ?_, ?_, by simp, ?_, ?_⟩
    · simp [goOptMapGet, mapInsert_get_same]
    · simp [goOptMapGet, mapInsert_get_other _ _ _ _ hk]
    · intro h
      exact absurd h (by simp)
    · intro m1 h
      injection h with h2
      subst h2
      rfl

/-- Witness for C10 at the default docker config and the key `"runc"`. -/
theorem c10_nvidia_override_frame_witness :
    ∃ c2 : DockerConfig,
      DockerNvidiaOverride GetDefaultDockerConfig = Except.ok c2 ∧
      c2.DefaultRuntime = "nvidia" ∧
      c2.DataRoot = GetDefaultDockerConfig.DataRoot ∧
      goOptMapGet c2.DockerDaemonRuntimes "nvidia" =
        some { Path := "/usr/bin/nvidia-container-runtime", RuntimeArgs := some [] } ∧
      goOptMapGet c2.DockerDaemonRuntimes "runc" =
        goOptMapGet GetDefaultDockerConfig.DockerDaemonRuntimes "runc" ∧
      c2.DockerDaemonRuntimes ≠ none ∧
      (GetDefaultDockerConfig.DockerDaemonRuntimes = none →
        c2.DockerDaemonRuntimes =
          some [("nvidia",
            { Path := "/usr/bin/nvidia-container-runtime", RuntimeArgs := some [] })]) ∧
      (∀ m0, GetDefaultDockerConfig.DockerDaemonRuntimes = some m0 →
        c2.DockerDaemonRuntimes =
          some (mapInsert m0 "nvidia"
            { Path := "/usr/bin/nvidia-container-runtime", RuntimeArgs := some [] })) :=
  c10_nvidia_override_frame GetDefaultDockerConfig "runc" (by decide)

lemma hve_notpool_fallback (c : VConsts) (ns : String) (v : GoValue) (rest : List VFailure)
    (hex : exactMatch ns = false)
    (hpool : ¬ (goStartsWith ns "Properties.AgentPoolProfiles" = true)) :
    HandleValidationErrors c (⟨ns, v⟩ :: rest) =
      some (fallbackMessage ns (⟨ns, v⟩ :: rest)) := by
  simp only [exactMatch, missingFamily, Bool.or_eq_false_iff,
    decide_eq_false_iff_not] at hex
  obtain ⟨⟨⟨⟨⟨⟨⟨⟨⟨⟨⟨⟨h1, h2⟩, h3⟩, h4⟩, h5⟩, h6⟩, h7⟩, h8⟩, h9⟩, h10⟩, h11⟩, h12⟩, h13⟩ := hex
  simp only [HandleValidationErrors]
  rw [if_neg (by simp [missingFamily, h1, h2, h3, h4, h5, h6, h7, h8, h9] :
        ¬ (missingFamily ns = true))]
  rw [if_neg h10, if_neg h11, if_neg h12, if_neg h13, if_neg hpool]

lemma assertedType_pool_char (ns : String)
    (hpool : goStartsWith ns "Properties.AgentPoolProfiles" = true) :
    assertedType ns =
      (if goEndsWith ns ".Name" || goEndsWith ns "VMSize" then none
       else if goEndsWith ns ".Count" then none
       else if goEndsWith ns ".OSDiskSizeGB" then some true
       else if goContainsStr ns ".Ports" then none
       else if goEndsWith ns ".StorageProfile" then some false
       else none) := by
  have hex := pool_not_exact ns hpool
  simp only [exactMatch, missingFamily, Bool.or_eq_false_iff,
    decide_eq_false_iff_not] at hex
  obtain ⟨⟨⟨⟨⟨⟨⟨⟨⟨⟨⟨⟨h1, h2⟩, h3⟩, h4⟩, h5⟩, h6⟩, h7⟩, h8⟩, h9⟩, h10⟩, h11⟩, h12⟩, h13⟩ := hex
  simp only [assertedType]
  rw [if_neg (by simp [missingFamily, h1, h2, h3, h4, h5, h6, h7, h8, h9] :
        ¬ (missingFamily ns = true))]
  rw [if_neg h10, if_neg h11, if_neg h12, if_neg h13, if_pos hpool]

/-- Claim C2: for every FieldPath with the agent-pool-profile prefix
carrying a recognized suffix or substring, `HandleValidationErrors`
returns the corresponding pattern-matched message (each later pattern
case under the dispatch order of the code, i.e. given that the earlier
pattern cases did not fire), including for indexed paths such as
`Properties.AgentPoolProfiles[2].Count`; exact-table matches take
precedence over the pattern stage (whenever the exact stage matches, the
result is the exact-stage message). -/
theorem c2_agent_pool_pattern_messages (c : VConsts) (ns : String) (v v2 : GoValue)
    (n : Int) (s : String) (rest rest2 : List VFailure) (err : VFailure)
    (hpool : goStartsWith ns "Properties.AgentPoolProfiles" = true)
    (hex2 : exactMatch err.Namespace = true) :
    ((goEndsWith ns ".Name" || goEndsWith ns "VMSize") = true →
      HandleValidationErrors c (⟨ns, v⟩ :: rest) = some ("missing " ++ ns)) ∧
    ((goEndsWith ns ".Name" || goEndsWith ns "VMSize") = false →
      goEndsWith ns ".Count" = true →
      HandleValidationErrors c (⟨ns, v⟩ :: rest) =
        some ("AgentPoolProfile count needs to be in the range [" ++
          toString c.MinAgentCount ++ "," ++ toString c.MaxAgentCount ++ "]")) ∧
    ((goEndsWith ns ".Name" || goEndsWith ns "VMSize") = false →
      goEndsWith ns ".Count" = false →
      goEndsWith ns ".OSDiskSizeGB" = true →
      HandleValidationErrors c (⟨ns, GoValue.int n⟩ :: rest) =
        some ("Invalid os disk size of " ++ toString n ++
          " specified.  The range of valid values are [" ++ toString c.MinDiskSizeGB ++
          ", " ++ toString c.MaxDiskSizeGB ++ "]")) ∧
    ((goEndsWith ns ".Name" || goEndsWith ns "VMSize") = false →
      goEndsWith ns ".Count" = false →
      goEndsWith ns ".OSDiskSizeGB" = false →
      goContainsStr ns ".Ports" = true →
      HandleValidationErrors c (⟨ns, v⟩ :: rest) =
        some ("AgentPoolProfile Ports must be in the range[" ++
          toString c.MinPort ++ ", " ++ toString c.MaxPort ++ "]")) ∧
    ((goEndsWith ns ".Name" || goEndsWith ns "VMSize") = false →
      goEndsWith ns ".Count" = false →
      goEndsWith ns ".OSDiskSizeGB" = false →
      goContainsStr ns ".Ports" = false →
      goEndsWith ns ".StorageProfile" = true →
      HandleValidationErrors c (⟨ns, GoValue.str s⟩ :: rest) =
        some ("Unknown storageProfile \x27" ++ s ++ "\x27. Specify " ++
          StorageAccount ++ ", " ++ ManagedDisks ++ ", or " ++ Ephemeral)) ∧
    ((goEndsWith ns ".Name" || goEndsWith ns "VMSize") = false →
      goEndsWith ns ".Count" = false →
      goEndsWith ns ".OSDiskSizeGB" = false →
      goContainsStr ns ".Ports" = false →
      goEndsWith ns ".StorageProfile" = false →
      goContainsStr ns ".DiskSizesGB" = true →
      HandleValidationErrors c (⟨ns, v⟩ :: rest) =
        some ("A maximum of " ++ toString c.MaxDisks ++
          " disks may be specified, The range of valid disk size values are [" ++
          toString c.MinDiskSizeGB ++ ", " ++ toString c.MaxDiskSizeGB ++ "]")) ∧
    ((goEndsWith ns ".Name" || goEndsWith ns "VMSize") = false →
      goEndsWith ns ".Count" = false →
      goEndsWith ns ".OSDiskSizeGB" = false →
      goContainsStr ns ".Ports" = false →
      goEndsWith ns ".StorageProfile" = false →
      goContainsStr ns ".DiskSizesGB" = false →
      goEndsWith ns ".IPAddressCount" = true →
      HandleValidationErrors c (⟨ns, v⟩ :: rest) =
        some ("AgentPoolProfile.IPAddressCount needs to be in the range [" ++
          toString c.MinIPAddressCount ++ "," ++ toString c.MaxIPAddressCount ++ "]")) ∧
    HandleValidationErrors c (⟨"Properties.AgentPoolProfiles[2].Count", v2⟩ :: rest2) =
      some ("AgentPoolProfile count needs to be in the range [" ++
        toString c.MinAgentCount ++ "," ++ toString c.MaxAgentCount ++ "]") ∧
    HandleValidationErrors c (err :: rest2) = exactStageResult c err := by
  refine ⟨?_, ?_, ?_, ?_, ?_, ?_, ?_, rfl, ?_⟩
  · intro h1
    rw [hve_pool_char c ns v rest hpool, if_pos h1]
  · intro h1 h2
    rw [hve_pool_char c ns v rest hpool, if_neg (by simp [h1]), if_pos h2]
  · intro h1 h2 h3
    rw [hve_pool_char c ns (GoValue.int n) rest hpool, if_neg (by simp [h1]),
      if_neg (by simp [h2]), if_pos h3]
    rfl
  · intro h1 h2 h3 h4
    rw [hve_pool_char c ns v rest hpool, if_neg (by simp [h1]), if_neg (by simp [h2]),
      if_neg (by simp [h3]), if_pos h4]
  · intro h1 h2 h3 h4 h5
    rw [hve_pool_char c ns (GoValue.str s) rest hpool, if_neg (by simp [h1]),
      if_neg (by simp [h2]), if_neg (by simp [h3]), if_neg (by simp [h4]), if_pos h5]
  · intro h1 h2 h3 h4 h5 h6
    rw [hve_pool_char c ns v rest hpool, if_neg (by simp [h1]), if_neg (by simp [h2]),
      if_neg (by simp [h3]), if_neg (by simp [h4]), if_neg (by simp [h5]), if_pos h6]
  · intro h1 h2 h3 h4 h5 h6 h7
    rw [hve_pool_char c ns v rest hpool, if_neg (by simp [h1]), if_neg (by simp [h2]),
      if_neg (by simp [h3]), if_neg (by simp [h4]), if_neg (by simp [h5]),
      if_neg (by simp [h6]), if_pos h7]
  · obtain ⟨ns2, vv⟩ := err
    simp only [exactMatch, missingFamily, Bool.or_eq_true, decide_eq_true_eq] at hex2
    rcases hex2 with ((((((((((((h | h) | h) | h) | h) | h) | h) | h) | h) | h) | h) | h) | h) <;>
      subst h <;> rfl

/-- Witness for C2 at the indexed path
`Properties.AgentPoolProfiles[2].Count` and the exact path
`Properties.MasterProfile.Count`. -/
theorem c2_agent_pool_pattern_messages_witness :
    ((goEndsWith "Properties.AgentPoolProfiles[2].Count" ".Name" ||
        goEndsWith "Properties.AgentPoolProfiles[2].Count" "VMSize") = true →
      HandleValidationErrors sampleConsts
          [⟨"Properties.AgentPoolProfiles[2].Count", GoValue.other⟩] =
        some ("missing " ++ "Properties.AgentPoolProfiles[2].Count")) ∧
    ((goEndsWith "Properties.AgentPoolProfiles[2].Count" ".Name" ||
        goEndsWith "Properties.AgentPoolProfiles[2].Count" "VMSize") = false →
      goEndsWith "Properties.AgentPoolProfiles[2].Count" ".Count" = true →
      HandleValidationErrors sampleConsts
          [⟨"Properties.AgentPoolProfiles[2].Count", GoValue.other⟩] =
        some ("AgentPoolProfile count needs to be in the range [" ++
          toString sampleConsts.MinAgentCount ++ "," ++
          toString sampleConsts.MaxAgentCount ++ "]")) ∧
    ((goEndsWith "Properties.AgentPoolProfiles[2].Count" ".Name" ||
        goEndsWith "Properties.AgentPoolProfiles[2].Count" "VMSize") = false →
      goEndsWith "Properties.AgentPoolProfiles[2].Count" ".Count" = false →
      goEndsWith "Properties.AgentPoolProfiles[2].Count" ".OSDiskSizeGB" = true →
      HandleValidationErrors sampleConsts
          [⟨"Properties.AgentPoolProfiles[2].Count", GoValue.int 0⟩] =
        some ("Invalid os disk size of " ++ toString (0 : Int) ++
          " specified.  The range of valid values are [" ++
          toString sampleConsts.MinDiskSizeGB ++ ", " ++
          toString sampleConsts.MaxDiskSizeGB ++ "]")) ∧
    ((goEndsWith "Properties.AgentPoolProfiles[2].Count" ".Name" ||
        goEndsWith "Properties.AgentPoolProfiles[2].Count" "VMSize") = false →
      goEndsWith "Properties.AgentPoolProfiles[2].Count" ".Count" = false →
      goEndsWith "Properties.AgentPoolProfiles[2].Count" ".OSDiskSizeGB" = false →
      goContainsStr "Properties.AgentPoolProfiles[2].Count" ".Ports" = true →
      HandleValidationErrors sampleConsts
          [⟨"Properties.AgentPoolProfiles[2].Count", GoValue.other⟩] =
        some ("AgentPoolProfile Ports must be in the range[" ++
          toString sampleConsts.MinPort ++ ", " ++ toString sampleConsts.MaxPort ++ "]")) ∧
    ((goEndsWith "Properties.AgentPoolProfiles[2].Count" ".Name" ||
        goEndsWith "Properties.AgentPoolProfiles[2].Count" "VMSize") = false →
      goEndsWith "Properties.AgentPoolProfiles[2].Count" ".Count" = false →
      goEndsWith "Properties.AgentPoolProfiles[2].Count" ".OSDiskSizeGB" = false →
      goContainsStr "Properties.AgentPoolProfiles[2].Count" ".Ports" = false →
      goEndsWith "Properties.AgentPoolProfiles[2].Count" ".StorageProfile" = true →
      HandleValidationErrors sampleConsts
          [⟨"Properties.AgentPoolProfiles[2].Count", GoValue.str ""⟩] =
        some ("Unknown storageProfile \x27" ++ "" ++ "\x27. Specify " ++
          StorageAccount ++ ", " ++ ManagedDisks ++ ", or " ++ Ephemeral)) ∧
    ((goEndsWith "Properties.AgentPoolProfiles[2].Count" ".Name" ||
        goEndsWith "Properties.AgentPoolProfiles[2].Count" "VMSize") = false →
      goEndsWith "Properties.AgentPoolProfiles[2].Count" ".Count" = false →
      goEndsWith "Properties.AgentPoolProfiles[2].Count" ".OSDiskSizeGB" = false →
      goContainsStr "Properties.AgentPoolProfiles[2].Count" ".Ports" = false →
      goEndsWith "Properties.AgentPoolProfiles[2].Count" ".StorageProfile" = false →
      goContainsStr "Properties.AgentPoolProfiles[2].Count" ".DiskSizesGB" = true →
      HandleValidationErrors sampleConsts
          [⟨"Properties.AgentPoolProfiles[2].Count", GoValue.other⟩] =
        some ("A maximum of " ++ toString sampleConsts.MaxDisks ++
          " disks may be specified, The range of valid disk size values are [" ++
          toString sampleConsts.MinDiskSizeGB ++ ", " ++
          toString sampleConsts.MaxDiskSizeGB ++ "]")) ∧
    ((goEndsWith "Properties.AgentPoolProfiles[2].Count" ".Name" ||
        goEndsWith "Properties.AgentPoolProfiles[2].Count" "VMSize") = false →
      goEndsWith "Properties.AgentPoolProfiles[2].Count" ".Count" = false →
      goEndsWith "Properties.AgentPoolProfiles[2].Count" ".OSDiskSizeGB" = false →
      goContainsStr "Properties.AgentPoolProfiles[2].Count" ".Ports" = false →
      goEndsWith "Properties.AgentPoolProfiles[2].Count" ".StorageProfile" = false →
      goContainsStr "Properties.AgentPoolProfiles[2].Count" ".DiskSizesGB" = false →
      goEndsWith "Properties.AgentPoolProfiles[2].Count" ".IPAddressCount" = true →
      HandleValidationErrors sampleConsts
          [⟨"Properties.AgentPoolProfiles[2].Count", GoValue.other⟩] =
        some ("AgentPoolProfile.IPAddressCount needs to be in the range [" ++
          toString sampleConsts.MinIPAddressCount ++ "," ++
          toString sampleConsts.MaxIPAddressCount ++ "]")) ∧
    HandleValidationErrors sampleConsts
        [⟨"Properties.AgentPoolProfiles[2].Count", GoValue.other⟩] =
      some ("AgentPoolProfile count needs to be in the range [" ++
        toString sampleConsts.MinAgentCount ++ "," ++
        toString sampleConsts.MaxAgentCount ++ "]") ∧
    HandleValidationErrors sampleConsts [⟨"Properties.MasterProfile.Count", GoValue.other⟩] =
      exactStageResult sampleConsts ⟨"Properties.MasterProfile.Count", GoValue.other⟩ :=
  c2_agent_pool_pattern_messages sampleConsts "Properties.AgentPoolProfiles[2].Count"
    GoValue.other GoValue.other 0 "" [] []
    ⟨"Properties.MasterProfile.Count", GoValue.other⟩ (by decide) (by decide)

/-- Claim C3: when the first failure of a batch matches neither the
exact-match table nor the agent-pool pattern stage, the translator
returns the generic fallback message, which contains the literal full
path string and embeds the raw failure batch. -/
theorem c3_fallback_message (c : VConsts) (ns : String) (v : GoValue) (rest : List VFailure)
    (hex : exactMatch ns = false) (hpat : patternMatch ns = false) :
    HandleValidationErrors c (⟨ns, v⟩ :: rest) =
      some (fallbackMessage ns (⟨ns, v⟩ :: rest)) ∧
    goContainsStr (fallbackMessage ns (⟨ns, v⟩ :: rest)) ns = true ∧
    goContainsStr (fallbackMessage ns (⟨ns, v⟩ :: rest)) (formatBatch (⟨ns, v⟩ :: rest)) = true := by
  refine ⟨?_, ?_, ?_⟩
  · by_cases hpool : goStartsWith ns "Properties.AgentPoolProfiles" = true
    · rw [hve_pool_char c ns v rest hpool]
      simp only [patternMatch, hpool, Bool.true_and, Bool.or_eq_false_iff] at hpat
      obtain ⟨⟨⟨⟨⟨⟨⟨g1, g2⟩, g3⟩, g4⟩, g5⟩, g6⟩, g7⟩, g8⟩ := hpat
      rw [if_neg (by simp [g1, g2]), if_neg (by simp [g3]), if_neg (by simp [g4]),
        if_neg (by simp [g5]), if_neg (by simp [g6]), if_neg (by simp [g7]),
        if_neg (by simp [g8])]
    · simp only [exactMatch, missingFamily, Bool.or_eq_false_iff,
        decide_eq_false_iff_not] at hex
      obtain ⟨⟨⟨⟨⟨⟨⟨⟨⟨⟨⟨⟨h1, h2⟩, h3⟩, h4⟩, h5⟩, h6⟩, h7⟩, h8⟩, h9⟩, h10⟩, h11⟩, h12⟩, h13⟩ := hex
      simp only [HandleValidationErrors]
      rw [if_neg (by simp [missingFamily, h1, h2, h3, h4, h5, h6, h7, h8, h9] :
            ¬ (missingFamily ns = true))]
      rw [if_neg h10, if_neg h11, if_neg h12, if_neg h13, if_neg hpool]
  · simp only [goContainsStr, fallbackMessage, String.data_append, List.append_assoc]
    exact containsSub_append_mid _ _ _
  · simp only [goContainsStr, fallbackMessage, String.data_append, List.append_assoc]
    rw [← List.append_assoc, ← List.append_assoc]
    exact containsSub_append_end _ _

/-- Witness for C3 at the unrecognized path `Properties.Bogus.Field`. -/
theorem c3_fallback_message_witness :
    HandleValidationErrors sampleConsts [⟨"Properties.Bogus.Field", GoValue.other⟩] =
      some (fallbackMessage "Properties.Bogus.Field"
        [⟨"Properties.Bogus.Field", GoValue.other⟩]) ∧
    goContainsStr
      (fallbackMessage "Properties.Bogus.Field" [⟨"Properties.Bogus.Field", GoValue.other⟩])
      "Properties.Bogus.Field" = true ∧
    goContainsStr
      (fallbackMessage "Properties.Bogus.Field" [⟨"Properties.Bogus.Field", GoValue.other⟩])
      (formatBatch [⟨"Properties.Bogus.Field", GoValue.other⟩]) = true :=
  c3_fallback_message sampleConsts "Properties.Bogus.Field" GoValue.other []
    (by decide) (by decide)

/-- Claim C7: the exact-path master storage-profile message lists exactly
the two valid values `StorageAccount` and `ManagedDisks`, while the
agent-pool storage-profile message lists exactly the three valid values
`StorageAccount`, `ManagedDisks` and `Ephemeral`; the three values are
pairwise distinct and the two messages are never equal (the asymmetry is
preserved, not normalized). -/
theorem c7_storage_profile_asymmetry (c : VConsts) (s : String) (ns : String)
    (rest rest2 : List VFailure)
    (hpool : goStartsWith ns "Properties.AgentPoolProfiles" = true)
    (h1 : (goEndsWith ns ".Name" || goEndsWith ns "VMSize") = false)
    (h2 : goEndsWith ns ".Count" = false)
    (h3 : goEndsWith ns ".OSDiskSizeGB" = false)
    (h4 : goContainsStr ns ".Ports" = false)
    (h5 : goEndsWith ns ".StorageProfile" = true) :
    HandleValidationErrors c
        (⟨"Properties.MasterProfile.StorageProfile", GoValue.str s⟩ :: rest) =
      some ("Unknown storageProfile \x27" ++ s ++ "\x27. Specify either " ++
        StorageAccount ++ " or " ++ ManagedDisks) ∧
    HandleValidationErrors c (⟨ns, GoValue.str s⟩ :: rest2) =
      some ("Unknown storageProfile \x27" ++ s ++ "\x27. Specify " ++
        StorageAccount ++ ", " ++ ManagedDisks ++ ", or " ++ Ephemeral) ∧
    StorageAccount ≠ ManagedDisks ∧ StorageAccount ≠ Ephemeral ∧ ManagedDisks ≠ Ephemeral ∧
    ("Unknown storageProfile \x27" ++ s ++ "\x27. Specify either " ++
        StorageAccount ++ " or " ++ ManagedDisks) ≠
      ("Unknown storageProfile \x27" ++ s ++ "\x27. Specify " ++
        StorageAccount ++ ", " ++ ManagedDisks ++ ", or " ++ Ephemeral) := by
  refine ⟨rfl, ?_, by decide, by decide, by decide, ?_⟩
  · rw [hve_pool_char c ns (GoValue.str s) rest2 hpool, if_neg (by simp [h1]),
      if_neg (by simp [h2]), if_neg (by simp [h3]), if_neg (by simp [h4]), if_pos h5]
  · intro h
    have h2b := congrArg String.data h
    simp only [StorageAccount, ManagedDisks, Ephemeral, String.data_append,
      List.append_assoc] at h2b
    have e1 := List.append_cancel_left h2b
    have e2 := List.append_cancel_left e1
    exact absurd e2 (by decide)

/-- Witness for C7 at the pool path
`Properties.AgentPoolProfiles[0].StorageProfile` and value `"foo"`. -/
theorem c7_storage_profile_asymmetry_witness :
    HandleValidationErrors sampleConsts
        [⟨"Properties.MasterProfile.StorageProfile", GoValue.str "foo"⟩] =
      some ("Unknown storageProfile \x27" ++ "foo" ++ "\x27. Specify either " ++
        StorageAccount ++ " or " ++ ManagedDisks) ∧
    HandleValidationErrors sampleConsts
        [⟨"Properties.AgentPoolProfiles[0].StorageProfile", GoValue.str "foo"⟩] =
      some ("Unknown storageProfile \x27" ++ "foo" ++ "\x27. Specify " ++
        StorageAccount ++ ", " ++ ManagedDisks ++ ", or " ++ Ephemeral) ∧
    StorageAccount ≠ ManagedDisks ∧ StorageAccount ≠ Ephemeral ∧ ManagedDisks ≠ Ephemeral ∧
    ("Unknown storageProfile \x27" ++ "foo" ++ "\x27. Specify either " ++
        StorageAccount ++ " or " ++ ManagedDisks) ≠
      ("Unknown storageProfile \x27" ++ "foo" ++ "\x27. Specify " ++
        StorageAccount ++ ", " ++ ManagedDisks ++ ", or " ++ Ephemeral) :=
  c7_storage_profile_asymmetry sampleConsts "foo"
    "Properties.AgentPoolProfiles[0].StorageProfile" [] []
    (by decide) (by decide) (by decide) (by decide) (by decide) (by decide)

/-- Claim C8 (counterexample): on the exact path
`Properties.MasterProfile.OSDiskSizeGB` with a string offending value the
failed type assertion `err.Value().(int)` panics, so the translator does
not return a message: the claim that it never fails for every offending
value is false. -/
theorem c8_never_fails_counterexample :
    HandleValidationErrors sampleConsts
      [⟨"Properties.MasterProfile.OSDiskSizeGB", GoValue.str "not-an-int"⟩] = none := rfl

/-- Claim C8 (amended): for every non-empty failure batch whose first
failure carries an offending value of the dynamic type its chosen message
template asserts, the translator terminates with a message (it is a pure
total function in this embedding), and it uses only the first failure of
the batch to choose the message: whenever the first failure is caught by
the exact or pattern stage, the result does not depend on the rest of the
batch. -/
theorem c8_amended_total_first_only (c : VConsts) (f : VFailure) (rest : List VFailure)
    (h : valueTypeMatches f = true) :
    (∃ m, HandleValidationErrors c (f :: rest) = some m) ∧
    ((exactMatch f.Namespace || patternMatch f.Namespace) = true →
      HandleValidationErrors c (f :: rest) = HandleValidationErrors c [f]) := by
  obtain ⟨ns, v⟩ := f
  constructor
  · by_cases hexact : exactMatch ns = true
    · simp only [exactMatch, missingFamily, Bool.or_eq_true, decide_eq_true_eq] at hexact
      rcases hexact with
          ((((((((((((h2 | h2) | h2) | h2) | h2) | h2) | h2) | h2) | h2) | h2) | h2) | h2) | h2) <;>
        subst h2 <;> cases v <;>
          first
            | exact ⟨_, rfl⟩
            | exact Bool.noConfusion (show (false : Bool) = true from h)
    · rw [Bool.not_eq_true] at hexact
      by_cases hpool : goStartsWith ns "Properties.AgentPoolProfiles" = true
      · rw [hve_pool_char c ns v rest hpool]
        by_cases b1 : (goEndsWith ns ".Name" || goEndsWith ns "VMSize") = true
        · rw [if_pos b1]; exact ⟨_, rfl⟩
        · rw [if_neg b1]
          by_cases b2 : goEndsWith ns ".Count" = true
          · rw [if_pos b2]; exact ⟨_, rfl⟩
          · rw [if_neg b2]
            by_cases b3 : goEndsWith ns ".OSDiskSizeGB" = true
            · rw [if_pos b3]
              have hat : assertedType ns = some true := by
                rw [assertedType_pool_char ns hpool, if_neg b1, if_neg b2, if_pos b3]
              simp only [valueTypeMatches, hat] at h
              cases v with
              | int n => exact ⟨_, rfl⟩
              | str s2 => exact Bool.noConfusion h
              | other => exact Bool.noConfusion h
            · rw [if_neg b3]
              by_cases b4 : goContainsStr ns ".Ports" = true
              · rw [if_pos b4]; exact ⟨_, rfl⟩
              · rw [if_neg b4]
                by_cases b5 : goEndsWith ns ".StorageProfile" = true
                · rw [if_pos b5]
                  have hat : assertedType ns = some false := by
                    rw [assertedType_pool_char ns hpool, if_neg b1, if_neg b2, if_neg b3,
                      if_neg b4, if_pos b5]
                  simp only [valueTypeMatches, hat] at h
                  cases v with
                  | int n => exact Bool.noConfusion h
                  | str s2 => exact ⟨_, rfl⟩
                  | other => exact Bool.noConfusion h
                · rw [if_neg b5]
                  by_cases b6 : goContainsStr ns ".DiskSizesGB" = true
                  · rw [if_pos b6]; exact ⟨_, rfl⟩
                  · rw [if_neg b6]
                    by_cases b7 : goEndsWith ns ".IPAddressCount" = true
                    · rw [if_pos b7]; exact ⟨_, rfl⟩
                    · rw [if_neg b7]; exact ⟨_, rfl⟩
      · exact ⟨_, hve_notpool_fallback c ns v rest hexact hpool⟩
  · intro hcaught
    by_cases hexact : exactMatch ns = true
    · simp only [exactMatch, missingFamily, Bool.or_eq_true, decide_eq_true_eq] at hexact
      rcases hexact with
          ((((((((((((h2 | h2) | h2) | h2) | h2) | h2) | h2) | h2) | h2) | h2) | h2) | h2) | h2) <;>
        subst h2 <;> rfl
    · have hpat : patternMatch ns = true := by
        simp only [Bool.or_eq_true] at hcaught
        rcases hcaught with hc | hc
        · exact absurd hc hexact
        · exact hc
      have hpool : goStartsWith ns "Properties.AgentPoolProfiles" = true := by
        have := hpat
        simp only [patternMatch, Bool.and_eq_true] at this
        exact this.1
      rw [hve_pool_char c ns v rest hpool, hve_pool_char c ns v [] hpool]
      simp only [patternMatch, hpool, Bool.true_and] at hpat
      by_cases b1 : (goEndsWith ns ".Name" || goEndsWith ns "VMSize") = true
      · rw [if_pos b1, if_pos b1]
      · rw [if_neg b1, if_neg b1]
        by_cases b2 : goEndsWith ns ".Count" = true
        · rw [if_pos b2, if_pos b2]
        · rw [if_neg b2, if_neg b2]
          by_cases b3 : goEndsWith ns ".OSDiskSizeGB" = true
          · rw [if_pos b3, if_pos b3]
          · rw [if_neg b3, if_neg b3]
            by_cases b4 : goContainsStr ns ".Ports" = true
            · rw [if_pos b4, if_pos b4]
            · rw [if_neg b4, if_neg b4]
              by_cases b5 : goEndsWith ns ".StorageProfile" = true
              · rw [if_pos b5, if_pos b5]
              · rw [if_neg b5, if_neg b5]
                by_cases b6 : goContainsStr ns ".DiskSizesGB" = true
                · rw [if_pos b6, if_pos b6]
                · rw [if_neg b6, if_neg b6]
                  by_cases b7 : goEndsWith ns ".IPAddressCount" = true
                  · rw [if_pos b7, if_pos b7]
                  · exfalso
                    rw [Bool.not_eq_true] at b1 b2 b3 b4 b5 b6 b7
                    simp only [Bool.or_eq_false_iff] at b1
                    simp [b1.1, b1.2, b2, b3, b4, b5, b6, b7] at hpat

/-- Witness for C8 (amended) at the master os-disk-size path with an
integer offending value and a non-trivial batch tail. -/
theorem c8_amended_total_first_only_witness :
    (∃ m, HandleValidationErrors sampleConsts
        (⟨"Properties.MasterProfile.OSDiskSizeGB", GoValue.int 7⟩ ::
          [⟨"Other", GoValue.other⟩]) = some m) ∧
    ((exactMatch (VFailure.mk "Properties.MasterProfile.OSDiskSizeGB" (GoValue.int 7)).Namespace ||
        patternMatch
          (VFailure.mk "Properties.MasterProfile.OSDiskSizeGB" (GoValue.int 7)).Namespace) = true →
      HandleValidationErrors sampleConsts
          (⟨"Properties.MasterProfile.OSDiskSizeGB", GoValue.int 7⟩ ::
            [⟨"Other", GoValue.other⟩]) =
        HandleValidationErrors sampleConsts
          [⟨"Properties.MasterProfile.OSDiskSizeGB", GoValue.int 7⟩]) :=
  c8_amended_total_first_only sampleConsts
    ⟨"Properties.MasterProfile.OSDiskSizeGB", GoValue.int 7⟩
    [⟨"Other", GoValue.other⟩] (by decide)
